import Mathlib

/-!
Shallow embedding of the three download scripts of RealtimeWhisper-Trans
(src/download_model.py, src/download_modelscope.py, src/download_argos_model.py)
and proofs about the batch-fetcher behaviour they implement.

The filesystem is an association list of file paths to sizes plus a list of
created directories.  A network attempt is an oracle value describing how the
underlying library call behaved on that URL during the run (success with the
downloaded size, or an exception, possibly after some bytes were already
written to the local file).  The loops of the three scripts are translated
line by line into total Lean functions over this state, instrumented with the
branch taken per entry (the printed outcome) and the number of network
requests issued.
-/

namespace RWT

/-- Filesystem state: files as an association list from path to size, plus the
set of directories created so far.  `os.path.exists` is modelled by
`pathExists`, which also treats a path as existing when some file or directory
lies strictly below it (as a real filesystem does for directories). -/
structure FS where
  files : List (String × Nat)
  dirs : List String
deriving Repr, DecidableEq

/-- Check that list `p` is an initial segment of list `l` (used for the
directory-style existence check). -/
def listStarts : List Char → List Char → Bool
  | [], _ => true
  | _ :: _, [] => false
  | a :: as, b :: bs => a == b && listStarts as bs

/-- Does string `s` begin with `p`? -/
def strStarts (p s : String) : Bool := listStarts p.data s.data

/-- Exact-path file lookup: is there a file stored at exactly path `p`? -/
def FS.hasFile (fs : FS) (p : String) : Bool :=
  fs.files.any (fun e => e.1 == p)

/-- Size of the file at path `p`, when present (os.path.getsize). -/
def FS.getSize (fs : FS) (p : String) : Option Nat :=
  (fs.files.find? (fun e => e.1 == p)).map (fun e => e.2)

/-- os.path.exists: `p` exists when a file is stored at `p`, when a file lies
below `p` (so `p` is a directory), or when `p` is or contains a created
directory. -/
def FS.pathExists (fs : FS) (p : String) : Bool :=
  fs.files.any (fun e => e.1 == p || strStarts (p ++ "/") e.1) ||
  fs.dirs.any (fun d => d == p || strStarts (p ++ "/") d)

/-- Write (create or truncate-and-replace) the file at path `p` with `n`
bytes. -/
def FS.writeFile (fs : FS) (p : String) (n : Nat) : FS :=
  { fs with files := (p, n) :: fs.files.filter (fun e => e.1 != p) }

/-- os.remove: delete the file stored at path `p`. -/
def FS.removeFile (fs : FS) (p : String) : FS :=
  { fs with files := fs.files.filter (fun e => e.1 != p) }

/-- os.makedirs with an explicit exist_ok flag: raises FileExistsError when
the directory exists and exist_ok is false, otherwise succeeds. -/
def FS.makedirs (fs : FS) (d : String) (existOk : Bool) : Except String FS :=
  if fs.pathExists d then
    if existOk then Except.ok fs else Except.error "FileExistsError"
  else Except.ok { fs with dirs := d :: fs.dirs }

/-- The total behaviour of `os.makedirs(d, exist_ok=True)`: add the directory
when absent, leave the state unchanged when present. -/
def FS.mkdirs (fs : FS) (d : String) : FS :=
  if fs.pathExists d then fs else { fs with dirs := d :: fs.dirs }

/-- The empty filesystem. -/
def FS.empty : FS := ⟨[], []⟩

/-- Which print branch a loop iteration took, the per-entry outcome of the
spec's `fetch_all` contract. -/
inductive Outcome where
  | alreadyPresent
  | fetched
  | failed
deriving Repr, DecidableEq

/-! ### download_model.py (HuggingFace / Opus-MT variant) -/

/-- Behaviour of one `urllib.request.urlretrieve(url, path)` call: success
writing `n` bytes, or an exception that may have left `w` partially written
bytes at the target path (urlretrieve does not clean up after itself). -/
inductive HfFetch where
  | ok (n : Nat)
  | err (leftover : Option Nat)
deriving Repr, DecidableEq

def MODEL_DIR_hf : String := "Models/opus-mt-en-zh"

def BASE_URL : String :=
  "https://huggingface.co/Helsinki-NLP/opus-mt-en-zh/resolve/main"

/-- The hard-coded FILES manifest of download_model.py (the MB size hints are
display-only and dropped). -/
def FILES_hf : List String :=
  ["model.onnx", "vocab.json", "config.json", "source.spm", "target.spm"]

/-- One iteration of the loop in `main` of download_model.py for entry
`filename`: skip when the local path exists; otherwise call `download_file`
and, on exception, delete the target path if it exists.  Returns the new
filesystem, the branch taken, and the number of network requests issued. -/
def hfStep (net : String → HfFetch) (fs : FS) (filename : String) :
    FS × Outcome × Nat :=
  let filepath := MODEL_DIR_hf ++ "/" ++ filename
  let url := BASE_URL ++ "/" ++ filename
  if fs.pathExists filepath then
    (fs, Outcome.alreadyPresent, 0)
  else
    match net url with
    | HfFetch.ok n => (fs.writeFile filepath n, Outcome.fetched, 1)
    | HfFetch.err leftover =>
        let fs1 := match leftover with
          | none => fs
          | some w => fs.writeFile filepath w
        let fs2 := if fs1.pathExists filepath then fs1.removeFile filepath else fs1
        (fs2, Outcome.failed, 1)

/-- The `for filename, size_mb in FILES` loop of download_model.py, over an
arbitrary manifest of filenames.  Returns the final filesystem, the outcome
per entry in manifest order, and the total number of network requests. -/
def hfLoop (net : String → HfFetch) : FS → List String → FS × List Outcome × Nat
  | fs, [] => (fs, [], 0)
  | fs, f :: rest =>
      let s := hfStep net fs f
      let r := hfLoop net s.1 rest
      (r.1, s.2.1 :: r.2.1, s.2.2 + r.2.2)

/-- `main` of download_model.py over a manifest: create the model directory
(exist_ok), then run the download loop. -/
def hfMain (net : String → HfFetch) (fs : FS) (manifest : List String) :
    FS × List Outcome × Nat :=
  hfLoop net (fs.mkdirs MODEL_DIR_hf) manifest

/-! ### download_modelscope.py (ModelScope / CSANMT variant) -/

/-- Behaviour of the try-block body of `download_file` in
download_modelscope.py on a given URL.  `urllib.request.urlopen` either raises
before the output file is touched (connection error, HTTP error status,
timeout at request time: `errBeforeOpen`), or it yields a response, after
which `open(path, 'wb')` creates/truncates the local file and
`f.write(response.read())` either fails mid-read/mid-write having written `w`
bytes (`errAfterOpen`) or completes with the full `n` bytes (`ok`). -/
inductive MsFetch where
  | errBeforeOpen
  | errAfterOpen (written : Nat)
  | ok (n : Nat)
deriving Repr, DecidableEq

def MODEL_DIR_ms : String := "Models/csanmt-en-zh"

def MS_BASE : String :=
  "https://modelscope.cn/models/damo/nlp_csanmt_translation_en2zh/resolve/master"

/-- The hard-coded FILES dict of download_modelscope.py, in insertion order
(filename, url). -/
def FILES_ms : List (String × String) :=
  [("tf_graph.pb", MS_BASE ++ "/tf_graph.pb"),
   ("spiece.model", MS_BASE ++ "/spiece.model"),
   ("vocab.txt", MS_BASE ++ "/vocab.txt"),
   ("configuration.json", MS_BASE ++ "/configuration.json")]

/-- The try-block body of `download_file`: performs the request and the write;
an `Except.error` is the exception carrying the filesystem as the failed body
left it. -/
def msTryBody (res : MsFetch) (fs : FS) (path : String) : Except FS FS :=
  match res with
  | MsFetch.errBeforeOpen => Except.error fs
  | MsFetch.errAfterOpen w => Except.error (fs.writeFile path w)
  | MsFetch.ok n => Except.ok (fs.writeFile path n)

/-- `download_file(url, path, filename)` of download_modelscope.py: return
True immediately when the path exists; otherwise run the try block, and on
exception print a diagnostic and return False (the except clause performs no
cleanup).  Returns the new filesystem, the boolean result, and the number of
network requests issued. -/
def ms_download_file (net : String → MsFetch) (fs : FS) (url path : String) :
    FS × Bool × Nat :=
  if fs.pathExists path then
    (fs, true, 0)
  else
    match msTryBody (net url) fs path with
    | Except.ok fs1 => (fs1, true, 1)
    | Except.error fs1 => (fs1, false, 1)

/-- Result of a run of the loop in `main` of download_modelscope.py. -/
structure MsRun where
  fs : FS
  results : List Bool
  successCount : Nat
  requests : Nat
deriving Repr, DecidableEq

/-- The `for filename, url in FILES.items()` loop of download_modelscope.py
over an arbitrary manifest: each entry's boolean feeds success_count. -/
def msLoop (net : String → MsFetch) : FS → List (String × String) → MsRun
  | fs, [] => ⟨fs, [], 0, 0⟩
  | fs, (filename, url) :: rest =>
      let path := MODEL_DIR_ms ++ "/" ++ filename
      let s := ms_download_file net fs url path
      let r := msLoop net s.1 rest
      ⟨r.fs, s.2.1 :: r.results, (if s.2.1 then 1 else 0) + r.successCount,
        s.2.2 + r.requests⟩

/-- `main` of download_modelscope.py over a manifest: create the target
directory (exist_ok), run the loop, and compute the summary flag
`success_count == len(FILES)` that selects the
"All files downloaded successfully!" line. -/
def msMain (net : String → MsFetch) (fs : FS) (manifest : List (String × String)) :
    MsRun × Bool :=
  let r := msLoop net (fs.mkdirs MODEL_DIR_ms) manifest
  (r, r.successCount == manifest.length)

/-! ### download_argos_model.py (Argos Translate variant) -/

/-- Result of opening the downloaded archive with zipfile and extracting:
either the ZipFile constructor / extractall raises, or extraction writes the
listed members (name, size) under the target directory. -/
inductive ZipOutcome where
  | badArchive
  | members (ms : List (String × Nat))
deriving Repr, DecidableEq

/-- Behaviour of the single `urllib.request.urlretrieve(MODEL_URL, zip_path)`
call of download_argos_model.py: an exception that may have left `w` bytes at
zip_path, or a completed download of `z` bytes whose subsequent extraction
behaves as `ext`. -/
inductive ArgosFetch where
  | err (leftover : Option Nat)
  | ok (z : Nat) (ext : ZipOutcome)
deriving Repr, DecidableEq

def MODEL_DIR_argos : String := "Models/argos-translate"

def argosZipPath : String := MODEL_DIR_argos ++ "/model.zip"

def argosMarkerPath : String := MODEL_DIR_argos ++ "/" ++ "model"

/-- Extract all archive members into the target directory
(`zip_ref.extractall(MODEL_DIR)`). -/
def extractAll (fs : FS) (ms : List (String × Nat)) : FS :=
  ms.foldl (fun a m => a.writeFile (MODEL_DIR_argos ++ "/" ++ m.1) m.2) fs

/-- `download_and_extract()` of download_argos_model.py: create the target
directory; if `MODEL_DIR/model` exists, print and return (no fetch);
otherwise download the archive to `MODEL_DIR/model.zip`, extract it, and
delete the archive — any exception in that try block only prints
manual-download instructions and deletes nothing.  Returns the new filesystem
and the number of network fetch attempts (0 or 1). -/
def download_and_extract (net : ArgosFetch) (fs : FS) : FS × Nat :=
  let fs0 := fs.mkdirs MODEL_DIR_argos
  if fs0.pathExists argosMarkerPath then
    (fs0, 0)
  else
    match net with
    | ArgosFetch.err none => (fs0, 1)
    | ArgosFetch.err (some w) => (fs0.writeFile argosZipPath w, 1)
    | ArgosFetch.ok z ZipOutcome.badArchive => (fs0.writeFile argosZipPath z, 1)
    | ArgosFetch.ok z (ZipOutcome.members ms) =>
        let fs1 := extractAll (fs0.writeFile argosZipPath z) ms
        (fs1.removeFile argosZipPath, 1)

/-- Two consecutive runs of download_and_extract against the same directory,
with the total number of network fetch attempts. -/
def argosTwice (net : ArgosFetch) (fs : FS) : FS × Nat :=
  let r1 := download_and_extract net fs
  let r2 := download_and_extract net r1.1
  (r2.1, r1.2 + r2.2)

/-! ### Progress hooks -/

/-- `progress_hook` of download_model.py: the reported percentage for one
callback, `none` when nothing is printed.  Python's
`int(count * block_size * 100 / total_size)` on nonnegative operands truncates
toward zero, i.e. floor division; the percentage is only computed under the
`total_size > 0` guard, and printed only when it is a multiple of 10. -/
def progress_hook_hf (count blockSize : Nat) (totalSize : Int) : Option Nat :=
  if totalSize > 0 then
    let percent := count * blockSize * 100 / totalSize.toNat
    if percent % 10 == 0 then some percent else none
  else none

/-- `progress_hook` of download_argos_model.py: the percentage is clamped to
100 and printed on every tenth callback. -/
def progress_hook_argos (count blockSize : Nat) (totalSize : Int) : Option Nat :=
  if totalSize > 0 then
    let percent := min 100 (count * blockSize * 100 / totalSize.toNat)
    if count % 10 == 0 then some percent else none
  else none

/-! ### Helper lemmas about the filesystem model -/

theorem any_filter_false {α : Type} (l : List α) (f g : α → Bool)
    (h : l.any f = false) : (l.filter g).any f = false := by
  rw [Bool.eq_false_iff] at h ⊢
  intro hc
  apply h
  rw [List.any_eq_true] at hc ⊢
  obtain ⟨x, hx, hfx⟩ := hc
  exact ⟨x, (List.mem_filter.mp hx).1, hfx⟩

theorem pathExists_mkdirs (fs : FS) (d p : String)
    (h : fs.pathExists p = true) : (fs.mkdirs d).pathExists p = true := by
  unfold FS.mkdirs
  split
  · exact h
  · unfold FS.pathExists at h ⊢
    simp only [List.any_cons, Bool.or_eq_true] at h ⊢
    tauto

theorem hasFile_mkdirs (fs : FS) (d p : String) :
    (fs.mkdirs d).hasFile p = fs.hasFile p := by
  unfold FS.mkdirs
  split <;> rfl

theorem hasFile_writeFile_self (fs : FS) (p : String) (n : Nat) :
    (fs.writeFile p n).hasFile p = true := by
  simp [FS.hasFile, FS.writeFile]

theorem hasFile_writeFile (fs : FS) (p q : String) (n : Nat)
    (h : fs.hasFile q = true) : (fs.writeFile p n).hasFile q = true := by
  simp only [FS.hasFile, FS.writeFile, List.any_eq_true, List.mem_cons,
    List.mem_filter] at h ⊢
  obtain ⟨e, he, hq⟩ := h
  by_cases hpq : e.1 = p
  · exact ⟨(p, n), Or.inl rfl, by rw [← hpq]; exact hq⟩
  · exact ⟨e, Or.inr ⟨he, by simp [hpq]⟩, hq⟩

theorem hasFile_removeFile_self (fs : FS) (p : String) :
    (fs.removeFile p).hasFile p = false := by
  simp only [FS.hasFile, FS.removeFile]
  rw [Bool.eq_false_iff]
  intro hc
  rw [List.any_eq_true] at hc
  obtain ⟨e, he, hq⟩ := hc
  have h1 := (List.mem_filter.mp he).2
  rw [beq_iff_eq] at hq
  simp [hq] at h1

theorem hasFile_removeFile (fs : FS) (p q : String) (hne : q ≠ p)
    (h : fs.hasFile q = true) : (fs.removeFile p).hasFile q = true := by
  simp only [FS.hasFile, FS.removeFile, List.any_eq_true, List.mem_filter] at h ⊢
  obtain ⟨e, he, hq⟩ := h
  rw [beq_iff_eq] at hq
  exact ⟨e, ⟨he, by simp [hq, hne]⟩, by simp [hq]⟩

theorem pathExists_of_hasFile (fs : FS) (p : String)
    (h : fs.hasFile p = true) : fs.pathExists p = true := by
  simp only [FS.hasFile, List.any_eq_true] at h
  obtain ⟨e, he, hq⟩ := h
  simp only [FS.pathExists, Bool.or_eq_true, List.any_eq_true]
  exact Or.inl ⟨e, he, Or.inl hq⟩

theorem pathExists_remove_partial (fs : FS) (p : String) (w : Nat)
    (h : fs.pathExists p = false) :
    ((fs.writeFile p w).removeFile p).pathExists p = false := by
  unfold FS.pathExists at h ⊢
  rw [Bool.or_eq_false_iff] at h ⊢
  obtain ⟨hf, hd⟩ := h
  refine ⟨?_, hd⟩
  simp only [FS.writeFile, FS.removeFile, List.filter_cons, bne_self_eq_false,
    Bool.false_eq_true, if_false]
  exact any_filter_false _ _ _ (any_filter_false _ _ _ hf)

theorem getSize_writeFile_self (fs : FS) (p : String) (n : Nat) :
    (fs.writeFile p n).getSize p = some n := by
  simp [FS.getSize, FS.writeFile, List.find?]

theorem hfLoop_length (net : String → HfFetch) (fs : FS) (manifest : List String) :
    (hfLoop net fs manifest).2.1.length = manifest.length := by
  induction manifest generalizing fs with
  | nil => rfl
  | cons f rest ih => simp [hfLoop, ih]

theorem msLoop_length (net : String → MsFetch) (fs : FS)
    (manifest : List (String × String)) :
    (msLoop net fs manifest).results.length = manifest.length := by
  induction manifest generalizing fs with
  | nil => rfl
  | cons e rest ih => simp [msLoop, ih]

theorem msLoop_count (net : String → MsFetch) (fs : FS)
    (manifest : List (String × String)) :
    (msLoop net fs manifest).successCount =
      (msLoop net fs manifest).results.count true := by
  induction manifest generalizing fs with
  | nil => rfl
  | cons e rest ih =>
    simp only [msLoop, List.count_cons, ih]
    cases h : (ms_download_file net fs
        (e.2) (MODEL_DIR_ms ++ "/" ++ e.1)).2.1 <;> simp [Nat.add_comm]

theorem msLoop_all_present (net : String → MsFetch) (fs : FS)
    (manifest : List (String × String))
    (h : ∀ e ∈ manifest, fs.pathExists (MODEL_DIR_ms ++ "/" ++ e.1) = true) :
    msLoop net fs manifest = ⟨fs, manifest.map (fun _ => true), manifest.length, 0⟩ := by
  induction manifest with
  | nil => rfl
  | cons e rest ih =>
    have he := h e (List.mem_cons_self e rest)
    have hstep : ms_download_file net fs e.2 (MODEL_DIR_ms ++ "/" ++ e.1) =
        (fs, true, 0) := by
      unfold ms_download_file
      simp [he]
    simp only [msLoop, hstep, ih (fun x hx => h x (List.mem_cons_of_mem e hx))]
    simp [Nat.add_comm]

theorem hasFile_extractAll (fs : FS) (ms : List (String × Nat)) (q : String)
    (h : fs.hasFile q = true) : (extractAll fs ms).hasFile q = true := by
  induction ms generalizing fs with
  | nil => exact h
  | cons m rest ih =>
    simp only [extractAll, List.foldl_cons]
    exact ih _ (hasFile_writeFile _ _ _ _ h)

theorem hasFile_extractAll_mem (fs : FS) (ms : List (String × Nat))
    (name : String) (k : Nat) (h : (name, k) ∈ ms) :
    (extractAll fs ms).hasFile (MODEL_DIR_argos ++ "/" ++ name) = true := by
  induction ms generalizing fs with
  | nil => cases h
  | cons m rest ih =>
    rcases List.mem_cons.mp h with h1 | h2
    · simp only [extractAll, List.foldl_cons, ← h1]
      exact hasFile_extractAll _ _ _ (hasFile_writeFile_self _ _ _)
    · simp only [extractAll, List.foldl_cons]
      exact ih _ h2

/-! ### Claim theorems -/

/-- C2: a manifest entry whose local file already exists at the target path is
settled with zero network requests in both loop variants: the HuggingFace loop
records outcome already-present and the ModelScope download_file returns True,
and in both cases the filesystem is returned entirely unchanged (no re-fetch,
no overwrite); presence is decided by path existence alone, with no content or
size validation. -/
theorem C2_already_present (net1 : String → HfFetch) (net2 : String → MsFetch)
    (fs1 fs2 : FS) (filename url path : String)
    (h1 : fs1.pathExists (MODEL_DIR_hf ++ "/" ++ filename) = true)
    (h2 : fs2.pathExists path = true) :
    hfStep net1 fs1 filename = (fs1, Outcome.alreadyPresent, 0) ∧
    ms_download_file net2 fs2 url path = (fs2, true, 0) := by
  constructor
  · unfold hfStep
    simp [h1]
  · unfold ms_download_file
    simp [h2]

theorem C2_witness :
    hfStep (fun _ => HfFetch.ok 7) (FS.mk [("Models/opus-mt-en-zh/model.onnx", 5)] [])
        "model.onnx" =
      (FS.mk [("Models/opus-mt-en-zh/model.onnx", 5)] [], Outcome.alreadyPresent, 0) ∧
    ms_download_file (fun _ => MsFetch.ok 7) (FS.mk [("Models/csanmt-en-zh/vocab.txt", 3)] [])
        (MS_BASE ++ "/vocab.txt") (MODEL_DIR_ms ++ "/vocab.txt") =
      (FS.mk [("Models/csanmt-en-zh/vocab.txt", 3)] [], true, 0) :=
  C2_already_present _ _ _ _ "model.onnx" _ _ (by decide) (by decide)

/-- C3: a failure at one entry never aborts the batch: for every manifest the
loop of either variant produces exactly one outcome per entry in manifest
order, and on the concrete three-entry manifest whose middle entry 404s the
HuggingFace loop yields [fetched, failed, fetched]. -/
theorem C3_no_abort (net : String → HfFetch) (netm : String → MsFetch)
    (fs fsm : FS) (manifest : List String) (manifestm : List (String × String)) :
    (hfLoop net fs manifest).2.1.length = manifest.length ∧
    (msLoop netm fsm manifestm).results.length = manifestm.length ∧
    (hfLoop (fun u => if u == BASE_URL ++ "/bad.txt" then HfFetch.err none else HfFetch.ok 10)
        FS.empty ["ok.txt", "bad.txt", "ok2.txt"]).2.1 =
      [Outcome.fetched, Outcome.failed, Outcome.fetched] :=
  ⟨hfLoop_length net fs manifest, msLoop_length netm fsm manifestm, by decide⟩

/-- C5: no exception from fetching an entry escapes the ModelScope main loop:
for every network behaviour the run is a total function that yields one
boolean outcome per manifest entry, and the reported success count is exactly
the number of successful entries among those outcomes. -/
theorem C5_completes (net : String → MsFetch) (fs : FS)
    (manifest : List (String × String)) :
    (msMain net fs manifest).1.results.length = manifest.length ∧
    (msMain net fs manifest).1.successCount =
      (msMain net fs manifest).1.results.count true :=
  ⟨msLoop_length net (fs.mkdirs MODEL_DIR_ms) manifest,
   msLoop_count net (fs.mkdirs MODEL_DIR_ms) manifest⟩

/-- C7: target-directory creation is idempotent: os.makedirs with
exist_ok=True (as all three scripts call it) on an already-existing directory
raises no error and returns the filesystem unchanged, and the total mkdirs
used by the loop entry points likewise leaves the state untouched. -/
theorem C7_makedirs_idempotent (fs : FS) (d : String)
    (h : fs.pathExists d = true) :
    fs.makedirs d true = Except.ok fs ∧ fs.mkdirs d = fs := by
  constructor
  · unfold FS.makedirs
    simp [h]
  · unfold FS.mkdirs
    simp [h]

theorem C7_witness :
    (FS.mk [] ["Models/opus-mt-en-zh"]).makedirs "Models/opus-mt-en-zh" true =
      Except.ok (FS.mk [] ["Models/opus-mt-en-zh"]) ∧
    (FS.mk [] ["Models/opus-mt-en-zh"]).mkdirs "Models/opus-mt-en-zh" =
      FS.mk [] ["Models/opus-mt-en-zh"] :=
  C7_makedirs_idempotent _ _ (by decide)

/-- C8: for the empty manifest the ModelScope main performs directory creation
only: it returns the empty outcome list, zero successes and zero network
requests, and directory creation itself writes no files. -/
theorem C8_empty_manifest (net : String → MsFetch) (fs : FS) :
    msMain net fs [] = (⟨fs.mkdirs MODEL_DIR_ms, [], 0, 0⟩, true) ∧
    (fs.mkdirs MODEL_DIR_ms).files = fs.files := by
  constructor
  · rfl
  · unfold FS.mkdirs
    split <;> rfl

/-- C10: both progress hooks compute a percentage only under the guard
total_size > 0, so the division by total_size is never reached with a zero or
negative divisor; when the content length is unknown (total_size ≤ 0, e.g.
the -1 urllib reports for a missing Content-Length) the hook reports nothing
for that block. -/
theorem C10_progress_guard (count blockSize : Nat) (totalSize : Int)
    (h : totalSize ≤ 0) :
    progress_hook_hf count blockSize totalSize = none ∧
    progress_hook_argos count blockSize totalSize = none := by
  have hng : ¬ (totalSize > 0) := by omega
  unfold progress_hook_hf progress_hook_argos
  rw [if_neg hng, if_neg hng]
  exact ⟨rfl, rfl⟩

theorem C10_witness :
    progress_hook_hf 3 8192 (-1) = none ∧
    progress_hook_argos 3 8192 (-1) = none :=
  C10_progress_guard 3 8192 (-1) (by decide)

/-- C1 counterexample: in the ModelScope variant a fetch that fails after the
output file has been opened (open truncates/creates the file before
response.read() can raise) leaves that file on disk: running the full
manifest against a network where every read fails mid-transfer records
failure for every entry, yet the first entry's target local path exists after
the run — the except clause of download_file deletes nothing. -/
theorem C1_counterexample :
    (msMain (fun _ => MsFetch.errAfterOpen 0) FS.empty FILES_ms).1.results =
      [false, false, false, false] ∧
    (msMain (fun _ => MsFetch.errAfterOpen 0) FS.empty FILES_ms).1.fs.pathExists
      (MODEL_DIR_ms ++ "/" ++ "tf_graph.pb") = true := by
  constructor <;> decide

/-- C1 (amended): in the HuggingFace variant (download_model.py) a failed
fetch leaves no file at the entry's target path — the except clause deletes
any partially written file before the loop continues.  In the ModelScope
variant (download_modelscope.py) the except clause deletes nothing, so the
guarantee holds only for failures raised before the output file is opened
(connection errors, HTTP error statuses, timeouts at request time), where the
filesystem is untouched. -/
theorem C1_amended (net1 : String → HfFetch) (net2 : String → MsFetch)
    (fs1 fs2 : FS) (filename url path : String) (r : Option Nat)
    (hnet1 : net1 (BASE_URL ++ "/" ++ filename) = HfFetch.err r)
    (h1 : fs1.pathExists (MODEL_DIR_hf ++ "/" ++ filename) = false)
    (hnet2 : net2 url = MsFetch.errBeforeOpen)
    (h2 : fs2.pathExists path = false) :
    (hfStep net1 fs1 filename).2.1 = Outcome.failed ∧
    (hfStep net1 fs1 filename).1.pathExists (MODEL_DIR_hf ++ "/" ++ filename) = false ∧
    ms_download_file net2 fs2 url path = (fs2, false, 1) := by
  have key : (hfStep net1 fs1 filename).2.1 = Outcome.failed ∧
      (hfStep net1 fs1 filename).1.pathExists (MODEL_DIR_hf ++ "/" ++ filename) = false := by
    unfold hfStep
    simp only [h1, Bool.false_eq_true, if_false, hnet1]
    cases r with
    | none => simp [h1]
    | some w =>
        have hw : (fs1.writeFile (MODEL_DIR_hf ++ "/" ++ filename) w).pathExists
            (MODEL_DIR_hf ++ "/" ++ filename) = true :=
          pathExists_of_hasFile _ _ (hasFile_writeFile_self _ _ _)
        simp [hw, pathExists_remove_partial _ _ _ h1]
  refine ⟨key.1, key.2, ?_⟩
  unfold ms_download_file
  simp [h2, hnet2, msTryBody]

theorem C1_witness :
    (hfStep (fun _ => HfFetch.err (some 3)) FS.empty "model.onnx").2.1 = Outcome.failed ∧
    (hfStep (fun _ => HfFetch.err (some 3)) FS.empty "model.onnx").1.pathExists
      (MODEL_DIR_hf ++ "/" ++ "model.onnx") = false ∧
    ms_download_file (fun _ => MsFetch.errBeforeOpen) FS.empty (MS_BASE ++ "/vocab.txt")
      (MODEL_DIR_ms ++ "/" ++ "vocab.txt") = (FS.empty, false, 1) :=
  C1_amended _ _ _ _ "model.onnx" _ _ (some 3) rfl (by decide) rfl (by decide)

/-- C4 counterexample: with a network where the archive downloads and
extracts successfully but contains no member named "model", the presence
marker is never created, so two consecutive runs of download_and_extract
against the same empty target directory both perform the network fetch: the
total is 2, refuting "at most once". -/
theorem C4_counterexample :
    ¬ ((argosTwice (ArgosFetch.ok 5 (ZipOutcome.members [("data.txt", 3)])) FS.empty).2 ≤ 1) := by
  decide

/-- C4 (amended): if the presence marker (the "model" subpath under the
target directory) exists, the run skips entirely with no network fetch; and
two consecutive runs against the same target directory perform the network
fetch at most once provided the download and extraction succeed and the
archive contains a member named "model" — otherwise the marker is absent
after the first run and the second run fetches again. -/
theorem C4_amended :
    (∀ (net : ArgosFetch) (fs : FS),
        (fs.mkdirs MODEL_DIR_argos).pathExists argosMarkerPath = true →
        download_and_extract net fs = (fs.mkdirs MODEL_DIR_argos, 0)) ∧
    (∀ (fs : FS) (z k : Nat) (ms : List (String × Nat)), ("model", k) ∈ ms →
        (argosTwice (ArgosFetch.ok z (ZipOutcome.members ms)) fs).2 ≤ 1) := by
  constructor
  · intro net fs h
    unfold download_and_extract
    simp [h]
  · intro fs z k ms hm
    unfold argosTwice
    by_cases hM : (fs.mkdirs MODEL_DIR_argos).pathExists argosMarkerPath = true
    · have h1 : download_and_extract (ArgosFetch.ok z (ZipOutcome.members ms)) fs =
          (fs.mkdirs MODEL_DIR_argos, 0) := by
        unfold download_and_extract
        simp [hM]
      have h2 : download_and_extract (ArgosFetch.ok z (ZipOutcome.members ms))
          (fs.mkdirs MODEL_DIR_argos) = ((fs.mkdirs MODEL_DIR_argos).mkdirs MODEL_DIR_argos, 0) := by
        unfold download_and_extract
        simp [pathExists_mkdirs _ _ _ hM]
      simp [h1, h2]
    · have hMf : (fs.mkdirs MODEL_DIR_argos).pathExists argosMarkerPath = false :=
        Bool.eq_false_iff.mpr hM
      have h1 : download_and_extract (ArgosFetch.ok z (ZipOutcome.members ms)) fs =
          ((extractAll ((fs.mkdirs MODEL_DIR_argos).writeFile argosZipPath z) ms).removeFile
              argosZipPath, 1) := by
        unfold download_and_extract
        simp [hMf]
      have hmark : ((extractAll ((fs.mkdirs MODEL_DIR_argos).writeFile argosZipPath z)
          ms).removeFile argosZipPath).hasFile argosMarkerPath = true :=
        hasFile_removeFile _ _ _ (by decide)
          (hasFile_extractAll_mem _ ms "model" k hm)
      have h2 : download_and_extract (ArgosFetch.ok z (ZipOutcome.members ms))
          ((extractAll ((fs.mkdirs MODEL_DIR_argos).writeFile argosZipPath z) ms).removeFile
              argosZipPath) =
          ((((extractAll ((fs.mkdirs MODEL_DIR_argos).writeFile argosZipPath z) ms).removeFile
              argosZipPath).mkdirs MODEL_DIR_argos), 0) := by
        unfold download_and_extract
        have : ((((extractAll ((fs.mkdirs MODEL_DIR_argos).writeFile argosZipPath z) ms).removeFile
            argosZipPath).mkdirs MODEL_DIR_argos)).pathExists argosMarkerPath = true := by
          apply pathExists_of_hasFile
          rw [hasFile_mkdirs]
          exact hmark
        simp [this]
      simp [h1, h2]

theorem C4_witness :
    download_and_extract (ArgosFetch.err none)
        (FS.mk [("Models/argos-translate/model", 1)] []) =
      ((FS.mk [("Models/argos-translate/model", 1)] []).mkdirs MODEL_DIR_argos, 0) ∧
    (argosTwice (ArgosFetch.ok 5 (ZipOutcome.members [("model", 7)])) FS.empty).2 ≤ 1 :=
  ⟨C4_amended.1 (ArgosFetch.err none) _ (by decide),
   C4_amended.2 FS.empty 5 7 [("model", 7)] (by decide)⟩

/-- C6: in the ModelScope variant an entry whose file already exists counts
toward success exactly like a fetched one: when every manifest file pre-exists
the run issues zero network requests, reports every entry successful, the
success count equals the manifest length (so the summary prints
"Downloaded: n/n"), and the success_count == len(FILES) test selecting
"All files downloaded successfully!" is true. -/
theorem C6_present_counts (net : String → MsFetch) (fs : FS)
    (h : ∀ e ∈ FILES_ms, fs.pathExists (MODEL_DIR_ms ++ "/" ++ e.1) = true) :
    (msMain net fs FILES_ms).1.results = FILES_ms.map (fun _ => true) ∧
    (msMain net fs FILES_ms).1.successCount = FILES_ms.length ∧
    (msMain net fs FILES_ms).1.requests = 0 ∧
    (msMain net fs FILES_ms).2 = true := by
  have h2 : ∀ e ∈ FILES_ms,
      (fs.mkdirs MODEL_DIR_ms).pathExists (MODEL_DIR_ms ++ "/" ++ e.1) = true :=
    fun e he => pathExists_mkdirs _ _ _ (h e he)
  have hl := msLoop_all_present net (fs.mkdirs MODEL_DIR_ms) FILES_ms h2
  unfold msMain
  rw [hl]
  simp

theorem C6_witness :
    (msMain (fun _ => MsFetch.errBeforeOpen)
        (FS.mk [("Models/csanmt-en-zh/tf_graph.pb", 1), ("Models/csanmt-en-zh/spiece.model", 1),
                ("Models/csanmt-en-zh/vocab.txt", 1), ("Models/csanmt-en-zh/configuration.json", 1)]
          []) FILES_ms).1.results = FILES_ms.map (fun _ => true) ∧
    (msMain (fun _ => MsFetch.errBeforeOpen)
        (FS.mk [("Models/csanmt-en-zh/tf_graph.pb", 1), ("Models/csanmt-en-zh/spiece.model", 1),
                ("Models/csanmt-en-zh/vocab.txt", 1), ("Models/csanmt-en-zh/configuration.json", 1)]
          []) FILES_ms).1.successCount = FILES_ms.length ∧
    (msMain (fun _ => MsFetch.errBeforeOpen)
        (FS.mk [("Models/csanmt-en-zh/tf_graph.pb", 1), ("Models/csanmt-en-zh/spiece.model", 1),
                ("Models/csanmt-en-zh/vocab.txt", 1), ("Models/csanmt-en-zh/configuration.json", 1)]
          []) FILES_ms).1.requests = 0 ∧
    (msMain (fun _ => MsFetch.errBeforeOpen)
        (FS.mk [("Models/csanmt-en-zh/tf_graph.pb", 1), ("Models/csanmt-en-zh/spiece.model", 1),
                ("Models/csanmt-en-zh/vocab.txt", 1), ("Models/csanmt-en-zh/configuration.json", 1)]
          []) FILES_ms).2 = true :=
  C6_present_counts _ _ (by decide)

/-- C9: in the Argos variant the temporary archive Models/argos-translate/model.zip
is removed only after extraction completes: when urlretrieve fails having
written w bytes, the run ends with model.zip holding exactly those w bytes;
when the download completes but extraction raises, model.zip remains with the
full download; and on a fully successful run model.zip is gone — in the
failure cases only a diagnostic with manual-download instructions is printed
and nothing is rolled back. -/
theorem C9_no_rollback (fs : FS) (w z : Nat) (ms : List (String × Nat))
    (h : (fs.mkdirs MODEL_DIR_argos).pathExists argosMarkerPath = false) :
    (download_and_extract (ArgosFetch.err (some w)) fs).1.getSize argosZipPath = some w ∧
    (download_and_extract (ArgosFetch.ok z ZipOutcome.badArchive) fs).1.getSize
      argosZipPath = some z ∧
    (download_and_extract (ArgosFetch.ok z (ZipOutcome.members ms)) fs).1.hasFile
      argosZipPath = false := by
  refine ⟨?_, ?_, ?_⟩ <;>
    · unfold download_and_extract
      simp [h, getSize_writeFile_self, hasFile_removeFile_self]

theorem C9_witness :
    (download_and_extract (ArgosFetch.err (some 5)) FS.empty).1.getSize argosZipPath = some 5 ∧
    (download_and_extract (ArgosFetch.ok 9 ZipOutcome.badArchive) FS.empty).1.getSize
      argosZipPath = some 9 ∧
    (download_and_extract (ArgosFetch.ok 9 (ZipOutcome.members [("model", 7)]))
      FS.empty).1.hasFile argosZipPath = false :=
  C9_no_rollback FS.empty 5 9 [("model", 7)] (by decide)

end RWT
